import Mathlib

/-
Verification of the Voltix invoice-extraction pipeline
(`site_app/invoices/views.py`) against its design specification.

The Python code is shallowly embedded:
- Python `str` is Lean `String` (Lean 4.14 strings are lists of `Char`);
  `str.lower` is modelled for the character repertoire that actually occurs
  (ASCII plus the accented Spanish letters appearing in the source).
- Python `float` values are modelled as exact rationals (`ℚ`); `float(s)`
  parsing is `pyFloat`, `round(x, 2)` is `pyRound2` (round-half-to-even at
  two decimals, Python's rounding mode).
- Python dicts holding the parsed invoice are association lists over a small
  JSON-like value type (`JVal`/`Entry`); `None` is `JVal.jnull`.
- `re` patterns are embedded via a small fuel-bounded backtracking matcher
  (`mrun`) with Python's leftmost search / greedy-lazy preference order;
  each pattern of the source is transcribed into the matcher's syntax.
- A `ValueError` escaping a field computation up to an extractor's outer
  `try` is modelled with `Option`: the extractor body yields `none` exactly
  when Python would fall into the outer `except`, and the extractor then
  returns the same error dictionary the `except` branch returns.
-/

namespace Voltix

/-! ## Python string primitives -/

/-- Python `str.lower` restricted to the characters occurring in this
pipeline: ASCII letters plus the accented Spanish letters used by the
marker strings and patterns of the source. -/
def pyLowerChar (c : Char) : Char :=
  if 'A' ≤ c ∧ c ≤ 'Z' then Char.ofNat (c.toNat + 32)
  else if c = 'Á' then 'á'
  else if c = 'É' then 'é'
  else if c = 'Í' then 'í'
  else if c = 'Ó' then 'ó'
  else if c = 'Ú' then 'ú'
  else if c = 'Ü' then 'ü'
  else if c = 'Ñ' then 'ñ'
  else c

def pyLower (s : String) : String :=
  String.mk (s.data.map pyLowerChar)

/-- The whitespace class of Python's `\s` / `str.strip` (ASCII part; the
OCR texts handled here contain no exotic Unicode spaces). -/
def pySpaceB (c : Char) : Bool :=
  c = ' ' || c = '\t' || c = '\n' || c = '\r' || c = '\x0b' || c = '\x0c'

/-- Does `pat` occur at the head of `s`? -/
def leadsWith : List Char → List Char → Bool
  | [], _ => true
  | _ :: _, [] => false
  | a :: as, b :: bs => a = b && leadsWith as bs

/-- First index at which `pat` occurs in `s` (Python `str.find`). -/
def findSubPos (pat : List Char) : List Char → Option Nat
  | [] => if pat.isEmpty then some 0 else none
  | b :: bs =>
    if leadsWith pat (b :: bs) then some 0
    else (findSubPos pat bs).map (· + 1)

/-- Python's substring test `pat in s`. -/
def occursIn (pat : List Char) (s : List Char) : Bool :=
  (findSubPos pat s).isSome

/-- Start indices of the non-overlapping occurrences of `pat` in `s`,
left to right (Python `re.finditer` on a literal pattern).  The first
argument is fuel, instantiated with `s.length + 1`. -/
def subPosGo (pat : List Char) : Nat → Nat → List Char → List Nat
  | 0, _, _ => []
  | n + 1, off, s =>
    match findSubPos pat s with
    | none => []
    | some i => (off + i) :: subPosGo pat n (off + i + pat.length) (s.drop (i + pat.length))

def subPositions (pat : List Char) (s : List Char) : List Nat :=
  subPosGo pat (s.length + 1) 0 s

/-- Python `str.strip()`. -/
def pyStrip (s : String) : String :=
  String.mk (((s.data.dropWhile pySpaceB).reverse.dropWhile pySpaceB).reverse)

/-- Python `s.replace(a, b)` for single characters. -/
def pyReplaceChar (a b : Char) (s : String) : String :=
  String.mk (s.data.map (fun c => if c = a then b else c))

/-- Python `s.replace(a, "")` for a single character. -/
def pyDeleteChar (a : Char) (s : String) : String :=
  String.mk (s.data.filter (fun c => ¬ (c = a)))

/-- Python `str.zfill`. -/
def pyZfill (w : Nat) (s : String) : String :=
  if w ≤ s.length then s
  else String.mk (List.replicate (w - s.length) '0' ++ s.data)

/-- `re.sub(r"\s+", " ", s)`: collapse every maximal whitespace run to a
single space.  The boolean records whether the previous character was
part of a run. -/
def collapseWsGo : Bool → List Char → List Char
  | _, [] => []
  | inRun, c :: rest =>
    if pySpaceB c then
      if inRun then collapseWsGo true rest else ' ' :: collapseWsGo true rest
    else c :: collapseWsGo false rest

def collapseWs (s : String) : String :=
  String.mk (collapseWsGo false s.data)

/-! ## Numbers: Python `float`/`int`/`round` on exact rationals -/

def digitsToNat (cs : List Char) : Nat :=
  cs.foldl (fun a c => a * 10 + (c.toNat - 48)) 0

/-- Python `int()` on a capture that the pattern guarantees to be a
digit string. -/
def pyIntOfDigits (s : String) : Int :=
  Int.ofNat (digitsToNat s.data)

/-! Rational arithmetic is routed through `mkRat`, whose normalization
reduces in the kernel (the `Rat.add`-style operations of the library are
`irreducible`, which would block evaluation inside `decide`); each helper
computes the exact rational the corresponding Python float operation
denotes. -/

/-- Exact rational addition via `mkRat`. -/
def qAdd (a b : ℚ) : ℚ :=
  mkRat (a.num * (b.den : ℤ) + b.num * (a.den : ℤ)) (a.den * b.den)

/-- Exact rational negation via `mkRat`. -/
def qNeg (a : ℚ) : ℚ :=
  mkRat (-a.num) a.den

/-- Exact division by 100 (Python's `/ 100` on these values). -/
def qDiv100 (a : ℚ) : ℚ :=
  mkRat a.num (a.den * 100)

/-- Body of `pyFloat` once an optional sign has been removed: digits with
at most one decimal point, at least one digit in total; the value is the
exact decimal `intpart.frac`. -/
def pyFloatCore (cs : List Char) : Option ℚ :=
  let intPart := cs.takeWhile Char.isDigit
  let rest := cs.dropWhile Char.isDigit
  match rest with
  | [] => if intPart.isEmpty then none else some (mkRat (Int.ofNat (digitsToNat intPart)) 1)
  | '.' :: frac =>
    if frac.all Char.isDigit && !(intPart.isEmpty && frac.isEmpty) then
      some (mkRat (Int.ofNat (digitsToNat intPart * 10 ^ frac.length + digitsToNat frac))
        (10 ^ frac.length))
    else none
  | _ => none

/-- Python `float(s)` for plain decimal strings (the only shape this code
ever feeds it; exponents, `inf` and `nan` never occur).  `none` models a
`ValueError`. -/
def pyFloat (s : String) : Option ℚ :=
  match (s.data.dropWhile pySpaceB).reverse.dropWhile pySpaceB |>.reverse with
  | '+' :: rest => pyFloatCore rest
  | '-' :: rest => (pyFloatCore rest).map qNeg
  | rest => pyFloatCore rest

/-- Floor of a rational, by floor division of numerator by denominator. -/
def ratFloor (q : ℚ) : ℤ :=
  Int.fdiv q.num (q.den : ℤ)

/-- Python `round(x, 2)`: round half to even at two decimals.  With
`x = q * 100` and `n = ⌊x⌋`, the fractional part `x - n` is compared to
one half through the integer `fr2 = 2 * (x.num - n * x.den)` against
`x.den` (the denominator is positive). -/
def pyRound2 (q : ℚ) : ℚ :=
  let x : ℚ := mkRat (q.num * 100) q.den
  let n : ℤ := ratFloor x
  let fr2 : ℤ := (x.num - n * (x.den : ℤ)) * 2
  let m : ℤ :=
    if fr2 < (x.den : ℤ) then n
    else if (x.den : ℤ) < fr2 then n + 1
    else if n % 2 = 0 then n else n + 1
  mkRat m 100

/-- The Spanish-locale normalization used by the Endesa rules:
`s.replace(".", "").replace(",", ".")` (strip thousands separators, then
decimal comma to decimal point). -/
def normEsNum (s : String) : String :=
  pyReplaceChar ',' '.' (pyDeleteChar '.' s)

/-- The plain-decimal normalization used by the Iberdrola/Lidera rules:
`s.replace(",", ".")`. -/
def normCommaDot (s : String) : String :=
  pyReplaceChar ',' '.' s

/-! ## A small regex engine

Backtracking matcher with Python `re`'s preference order (leftmost
search position; greedy stars try the longest body first, lazy stars the
shortest) and numbered capture groups.  Recursion is bounded by fuel;
`reFuel` is far beyond the backtracking depth any pattern of this file
can reach on its input. -/

/-- Character classes appearing in the source's patterns. -/
inductive CC where
  | digit
  | space
  | word
  | one (c : Char)
  | ciOne (c : Char)
  | ciAnyOf (cs : List Char)
  | anyOf (cs : List Char)
  | rng (lo hi : Char)
  | dot (dotall : Bool)
  | neg (a : CC)
  | orCC (a b : CC)

/-- Spanish letters that Python's Unicode `\w` accepts beyond ASCII. -/
def spanishLetter (c : Char) : Bool :=
  c = 'á' || c = 'é' || c = 'í' || c = 'ó' || c = 'ú' || c = 'ü' || c = 'ñ' ||
  c = 'Á' || c = 'É' || c = 'Í' || c = 'Ó' || c = 'Ú' || c = 'Ü' || c = 'Ñ'

def ccMatch : CC → Char → Bool
  | .digit, c => c.isDigit
  | .space, c => pySpaceB c
  | .word, c => c.isAlphanum || c = '_' || spanishLetter c
  | .one a, c => c = a
  | .ciOne a, c => pyLowerChar c = pyLowerChar a
  | .ciAnyOf cs, c => cs.contains (pyLowerChar c)
  | .anyOf cs, c => cs.contains c
  | .rng lo hi, c => lo.toNat ≤ c.toNat && c.toNat ≤ hi.toNat
  | .dot dotall, c => dotall || !(c = '\n')
  | .neg a, c => !(ccMatch a c)
  | .orCC a b, c => ccMatch a c || ccMatch b c

inductive RE where
  | eps
  | cls (c : CC)
  | seq (a b : RE)
  | alt (a b : RE)
  | starG (a : RE)
  | starL (a : RE)
  | grp (i : Nat) (a : RE)

/-- Captured groups: most recent first; `group(i)` is the first hit. -/
abbrev Caps := List (Nat × String)

/-- Match `r` against a prefix of `s`, calling the continuation `k` on the
rest and the captures; alternatives are tried in Python's preference
order, so the first `some` the continuation produces is the overall
answer. -/
def mrun {α : Type} (fuel : Nat) (r : RE) (s : List Char) (caps : Caps)
    (k : List Char → Caps → Option α) : Option α :=
  match fuel with
  | 0 => none
  | fuel + 1 =>
    match r with
    | .eps => k s caps
    | .cls cc =>
      match s with
      | [] => none
      | c :: rest => if ccMatch cc c then k rest caps else none
    | .seq a b => mrun fuel a s caps (fun s2 c2 => mrun fuel b s2 c2 k)
    | .alt a b =>
      match mrun fuel a s caps k with
      | some res => some res
      | none => mrun fuel b s caps k
    | .starG a =>
      match mrun fuel a s caps
          (fun s2 c2 => if s2.length < s.length then mrun fuel (.starG a) s2 c2 k else none) with
      | some res => some res
      | none => k s caps
    | .starL a =>
      match k s caps with
      | some res => some res
      | none =>
        mrun fuel a s caps
          (fun s2 c2 => if s2.length < s.length then mrun fuel (.starL a) s2 c2 k else none)
    | .grp i a =>
      mrun fuel a s caps
        (fun s2 c2 => k s2 ((i, String.mk (s.take (s.length - s2.length))) :: c2))

def reFuel (s : List Char) : Nat :=
  32 * s.length + 600

/-- Scan of `re.search`: try each start position left to right, return
the captures of the first match. -/
def searchCapsFrom (r : RE) (fuel : Nat) : List Char → Option Caps
  | [] => mrun fuel r [] [] (fun _ caps => some caps)
  | c :: rest =>
    match mrun fuel r (c :: rest) [] (fun _ caps => some caps) with
    | some caps => some caps
    | none => searchCapsFrom r fuel rest

def reSearch (r : RE) (s : String) : Option Caps :=
  searchCapsFrom r (reFuel s.data) s.data

/-- `re.match`: anchored at the start of the string. -/
def reMatchStart (r : RE) (s : String) : Option Caps :=
  mrun (reFuel s.data) r s.data [] (fun _ caps => some caps)

def grpGet (caps : Option Caps) (i : Nat) : Option String :=
  caps.bind (fun cs => cs.lookup i)

/-- Scan returning both the captures and the input remaining after the
match's end (for `finditer`). -/
def searchEndFrom (r : RE) (fuel : Nat) : List Char → Option (Caps × List Char)
  | [] => mrun fuel r [] [] (fun s2 caps => some (caps, s2))
  | c :: rest =>
    match mrun fuel r (c :: rest) [] (fun s2 caps => some (caps, s2)) with
    | some res => some res
    | none => searchEndFrom r fuel rest

/-- All group-`i` captures of the non-overlapping matches, left to right
(`re.finditer`/`re.findall`).  The first argument is fuel. -/
def findAllGo (r : RE) (i : Nat) : Nat → List Char → List String
  | 0, _ => []
  | n + 1, s =>
    match searchEndFrom r (reFuel s) s with
    | none => []
    | some (caps, rest) =>
      (match caps.lookup i with | some g => [g] | none => []) ++
      (if rest.length < s.length then findAllGo r i n rest
       else match rest with
        | [] => []
        | _ :: rr => findAllGo r i n rr)

def findAllGroups (r : RE) (i : Nat) (s : String) : List String :=
  findAllGo r i (s.data.length + 1) s.data

/-! ### Pattern-building helpers -/

def rchr (c : Char) : RE := .cls (.one c)

def rchrCI (c : Char) : RE := .cls (.ciOne c)

def rstr (s : String) : RE := s.data.foldr (fun c acc => .seq (rchr c) acc) .eps

def rstrCI (s : String) : RE := s.data.foldr (fun c acc => .seq (rchrCI c) acc) .eps

def rcat (rs : List RE) : RE := rs.foldr .seq .eps

def rplusG (r : RE) : RE := .seq r (.starG r)

def roptG (r : RE) : RE := .alt r .eps

def rdig : RE := .cls .digit

/-- `\s*` -/
def rWS : RE := .starG (.cls .space)

/-- `\s+` -/
def rWSp : RE := rplusG (.cls .space)

/-- `x{1,3}` greedy, for a single class. -/
def rrep13 (c : CC) : RE := rcat [.cls c, roptG (.cls c), roptG (.cls c)]

/-- `x{1,2}` greedy, for a single class. -/
def rrep12 (c : CC) : RE := .seq (.cls c) (roptG (.cls c))

/-- `[\d,\.]` (also written `[\d.,]` in the source). -/
def numCC : CC := .orCC .digit (.anyOf [',', '.'])

/-- `\d{2}/\d{2}/\d{4}` -/
def dateDDMMYYYY : RE :=
  rcat [rdig, rdig, rchr '/', rdig, rdig, rchr '/', rdig, rdig, rdig, rdig]

/-- `\d{1,2}/\d{1,2}/\d{4}` -/
def dateD12 : RE :=
  rcat [rrep12 .digit, rchr '/', rrep12 .digit, rchr '/', rdig, rdig, rdig, rdig]

/-- `\d{1,3}(?:\.\d{3})*,\d{2}` — a Spanish-locale money amount. -/
def moneyES : RE :=
  rcat [rrep13 .digit, .starG (rcat [rchr '.', rdig, rdig, rdig]), rchr ',', rdig, rdig]

/-! ## The parsed-invoice dictionaries

The extractors return Python dicts whose values are `None`, strings,
ints, floats, or one-level nested dicts.  They are modelled as
association lists; `JVal.jbool` exists only so that the spec-side notion
of an explicit `placeholder: true` marker (design notes §9) is
expressible. -/

inductive JVal where
  | jnull
  | jstr (s : String)
  | jint (n : Int)
  | jnum (q : ℚ)
  | jbool (b : Bool)
deriving DecidableEq, Repr

inductive Entry where
  | leaf (v : JVal)
  | node (kvs : List (String × JVal))
deriving DecidableEq, Repr

abbrev ParsedDict := List (String × Entry)

/-- Dict lookup (`d[k]` / `k in d`). -/
def dget (k : String) : ParsedDict → Option Entry
  | [] => none
  | (k2, v) :: rest => if k = k2 then some v else dget k rest

/-- Lookup in a flat string-to-value dict. -/
def jget (k : String) : List (String × JVal) → Option JVal
  | [] => none
  | (k2, v) :: rest => if k = k2 then some v else jget k rest

/-- Lookup in a nested dict: `d[k1][k2]`. -/
def dget2 (d : ParsedDict) (k1 k2 : String) : Option JVal :=
  match dget k1 d with
  | some (.node kvs) => jget k2 kvs
  | _ => none

/-- The check the caller performs: `"error" in parsed_data`. -/
def hasError (d : ParsedDict) : Bool :=
  (dget "error" d).isSome

def dictKeys (d : ParsedDict) : List String :=
  d.map Prod.fst

/-- The nine keys every successfully parsed invoice record carries. -/
def stdKeys : List String :=
  ["nombre_cliente", "numero_referencia", "fecha_emision", "periodo_facturacion",
   "forma_pago", "fecha_cargo", "mandato", "desglose_cargos", "detalles_consumo"]

def errMsgDict (m : String) : ParsedDict :=
  [("error", .leaf (.jstr m))]

def optStr : Option String → JVal
  | some s => .jstr s
  | none => .jnull

def optInt : Option Int → JVal
  | some n => .jint n
  | none => .jnull

def optNum : Option ℚ → JVal
  | some q => .jnum q
  | none => .jnull

/-! ## Date helpers -/

/-- The fixed 12-entry Spanish month table of the source. -/
def mesesLookup (m : String) : Option String :=
  [("enero", "01"), ("febrero", "02"), ("marzo", "03"), ("abril", "04"),
   ("mayo", "05"), ("junio", "06"), ("julio", "07"), ("agosto", "08"),
   ("septiembre", "09"), ("octubre", "10"), ("noviembre", "11"),
   ("diciembre", "12")].lookup m

def isLeapYear (y : Nat) : Bool :=
  (y % 4 = 0 && !(y % 100 = 0)) || y % 400 = 0

def daysInMonth (y m : Nat) : Nat :=
  if m = 2 then (if isLeapYear y then 29 else 28)
  else if m = 4 || m = 6 || m = 9 || m = 11 then 30
  else 31

/-- Split a character list at every occurrence of `sep` (Python
`str.split` on a single character). -/
def splitOnCh (sep : Char) : List Char → List (List Char)
  | [] => [[]]
  | c :: rest =>
    match splitOnCh sep rest with
    | [] => [[]]
    | part :: parts => if c = sep then [] :: part :: parts else (c :: part) :: parts

/-- `datetime.strptime(s, "%d/%m/%Y")`: day and month take one or two
digits with values in range, the year exactly four digits, and the
resulting calendar date must exist (`datetime` validates it). -/
def strptimeDMY (s : String) : Option (Nat × Nat × Nat) :=
  match splitOnCh '/' s.data with
  | [ds, ms, ys] =>
    if ds.all Char.isDigit && ms.all Char.isDigit && ys.all Char.isDigit &&
       (ds.length = 1 || ds.length = 2) && (ms.length = 1 || ms.length = 2) &&
       ys.length = 4 then
      let d := digitsToNat ds
      let m := digitsToNat ms
      let y := digitsToNat ys
      if 1 ≤ m && m ≤ 12 && 1 ≤ d && d ≤ daysInMonth y m && 1 ≤ y then
        some (d, m, y)
      else none
    else none
  | _ => none

/-- Decimal rendering of a natural, left-padded with zeros to `w`
digits (`strftime`'s `%Y`, `%m`, `%d`). -/
def natPad (w : Nat) (n : Nat) : String :=
  pyZfill w (Nat.repr n)

/-- The source's `format_date_to_yyyy_mm_dd`: `strptime` with
`"%d/%m/%Y"`, rendered as `"%Y-%m-%d"`; `None` on `ValueError`. -/
def format_date_to_yyyy_mm_dd (s : String) : Option String :=
  (strptimeDMY s).map (fun dmy =>
    natPad 4 dmy.2.2 ++ "-" ++ natPad 2 dmy.2.1 ++ "-" ++ natPad 2 dmy.1)

/-- The source's `format_date_with_month_name`, applied to the three
captured groups (day, month name, year): month resolved through
`mesesLookup` after lowercasing, day zero-filled to two digits. -/
def format_date_with_month_name (dia mes anio : String) : Option String :=
  match mesesLookup (pyLower mes) with
  | some m => some (anio ++ "-" ++ m ++ "-" ++ pyZfill 2 dia)
  | none => none

/-! ## Vendor classification (`convert_ocr_to_json`'s dispatch) -/

inductive VendorTag where
  | endesa
  | iberdrola
  | lidera
  | naturgy
  | edistribucion
  | unrecognized
deriving DecidableEq, Fintype

/-- The canonical marker substring whose containment in the lowercased
OCR text selects the vendor. -/
def markerOf : VendorTag → String
  | .endesa => "endesa"
  | .iberdrola => "iberdrola"
  | .lidera => "lidera comercializadora energia"
  | .naturgy => "naturgy iberia"
  | .edistribucion => "e-distribución"
  | .unrecognized => ""

/-- `marker in ocr_text.lower()`. -/
def hasMarker (t : String) (m : String) : Bool :=
  occursIn m.data (pyLower t).data

/-- The `if/elif` chain of `convert_ocr_to_json`. -/
def classifyVendor (t : String) : VendorTag :=
  if hasMarker t "endesa" then .endesa
  else if hasMarker t "iberdrola" then .iberdrola
  else if hasMarker t "lidera comercializadora energia" then .lidera
  else if hasMarker t "naturgy iberia" then .naturgy
  else if hasMarker t "e-distribución" then .edistribucion
  else .unrecognized

/-- The error dictionary returned when no comercializadora is
recognized. -/
def errNoVendor : ParsedDict :=
  errMsgDict "No se reconoció ninguna comercializadora en el OCR."

/-- `convert_ocr_to_json`, parameterized by the five vendor extraction
functions it may dispatch to. -/
def convert_with (fE fI fL fN fD : String → ParsedDict) (t : String) : ParsedDict :=
  match classifyVendor t with
  | .endesa => fE t
  | .iberdrola => fI t
  | .lidera => fL t
  | .naturgy => fN t
  | .edistribucion => fD t
  | .unrecognized => errNoVendor

/-- Spec-side rendering of §4.4: first match over the fixed priority
list of providers. -/
def classifySpecOrder (t : String) : VendorTag :=
  match [VendorTag.endesa, .iberdrola, .lidera, .naturgy, .edistribucion].find?
      (fun v => hasMarker t (markerOf v)) with
  | some v => v
  | none => .unrecognized

/-- Spec-side rendering of the `placeholder: true` marker that §7/§9 ask
for on unimplemented-vendor results. -/
def placeholderFlagged (d : ParsedDict) : Bool :=
  dget "placeholder" d == some (.leaf (.jbool true))

/-! ## The Endesa extractor (`extract_endesa_data`)

Field rules operate on `normalized_text = re.sub(r"\s+", " ", ocr_text)`
except `nombre_cliente`, which searches the raw text.  An unguarded
`float(...)` raising propagates to the function's outer `try`, which
returns the Endesa error dictionary; this is the `Option` layer of
`endesaBodyN`. -/

/-- `Titular del contrato:\s*(.*?)\s*\n\nCUPS:` (IGNORECASE, raw text),
then `.strip()`. -/
def endesaNombre (t : String) : Option String :=
  (grpGet (reSearch (rcat [rstrCI "Titular del contrato:", rWS,
    .grp 1 (.starL (.cls (.dot false))), rWS, rchr '\n', rchr '\n',
    rstrCI "CUPS:"]) t) 1).map pyStrip

/-- `Referencia:` then `\s*` then a group of word, slash or hyphen
characters (one or more), then `.strip()`. -/
def endesaRef (n : String) : Option String :=
  (grpGet (reSearch (rcat [rstr "Referencia:", rWS,
    .grp 1 (rplusG (.cls (.orCC .word (.anyOf ['/', '-']))))]) n) 1).map pyStrip

/-- `Fecha emisión factur[a|:]*\s*(\d{2}/\d{2}/\d{4})` (IGNORECASE). -/
def endesaFechaEmisionRaw (n : String) : Option String :=
  grpGet (reSearch (rcat [rstrCI "Fecha emisión factur",
    .starG (.cls (.ciAnyOf ['a', '|', ':'])), rWS, .grp 1 dateDDMMYYYY]) n) 1

/-- `Periodo de facturación: del\s*(\d{2}/\d{2}/\d{4})`. -/
def endesaPeriodoInicioRaw (n : String) : Option String :=
  grpGet (reSearch (rcat [rstr "Periodo de facturación: del", rWS,
    .grp 1 dateDDMMYYYY]) n) 1

/-- `a\s*(\d{2}/\d{2}/\d{4})`. -/
def endesaPeriodoFinRaw (n : String) : Option String :=
  grpGet (reSearch (rcat [rchr 'a', rWS, .grp 1 dateDDMMYYYY]) n) 1

/-- `\((\d+)\s*días\)`. -/
def endesaDiasRaw (n : String) : Option String :=
  grpGet (reSearch (rcat [rchr '(', .grp 1 (rplusG rdig), rWS,
    rstr "días", rchr ')']) n) 1

/-- `Fecha de cargo:\s*(\d{2})\s*de\s*(\w+)\s*de\s*(\d{4})`, fed into
`format_date_with_month_name`. -/
def endesaFechaCargo (n : String) : Option String :=
  match reSearch (rcat [rstr "Fecha de cargo:", rWS, .grp 1 (rcat [rdig, rdig]),
      rWS, rstr "de", rWS, .grp 2 (rplusG (.cls .word)), rWS, rstr "de", rWS,
      .grp 3 (rcat [rdig, rdig, rdig, rdig])]) n with
  | none => none
  | some caps =>
    match caps.lookup 1, caps.lookup 2, caps.lookup 3 with
    | some dia, some mes, some anio => format_date_with_month_name dia mes anio
    | _, _, _ => none

/-- `Cod\.?Mandato:\s*(\w+)`, then `.strip()`. -/
def endesaMandato (n : String) : Option String :=
  (grpGet (reSearch (rcat [rstr "Cod", roptG (rchr '.'), rstr "Mandato:", rWS,
    .grp 1 (rplusG (.cls .word))]) n) 1).map pyStrip

/-- `<kw>.*? (\d{1,3}(?:\.\d{3})*,\d{2}) €` — shared by the Potencia,
Impuestos and Total rules. -/
def endesaMoneyLazy (kw : String) (n : String) : Option String :=
  grpGet (reSearch (rcat [rstr kw, .starL (.cls (.dot false)), rchr ' ',
    .grp 1 moneyES, rstr " €"]) n) 1

/-- `Energía\s+(\d{1,3}(?:\.\d{3})*,\d{2})`. -/
def endesaCostoEnergiaRaw (n : String) : Option String :=
  grpGet (reSearch (rcat [rstr "Energía", rWSp, .grp 1 moneyES]) n) 1

/-- `Descuentos.*? (-?\d{1,3}(?:\.\d{3})*,\d{2}) €`. -/
def endesaDescuentosRaw (n : String) : Option String :=
  grpGet (reSearch (rcat [rstr "Descuentos", .starL (.cls (.dot false)), rchr ' ',
    .grp 1 (rcat [roptG (rchr '-'), moneyES]), rstr " €"]) n) 1

/-- `consumo_punta`: last Spanish-format number occurring before the
first `"llano"` of the lowercased normalized text (whole block guarded
by `try`, so any miss is `None`). -/
def endesaConsumoPunta (n : String) : Option ℚ :=
  match findSubPos ("llano".data) ((pyLower n).data) with
  | none => none
  | some pos =>
    ((findAllGroups (.grp 1 moneyES) 1 (String.mk (n.data.take pos))).getLast?).bind
      (fun g => pyFloat (normEsNum g))

/-- `consumo_valle`: third-from-last Spanish-format number before the
sixth `"potencia"` of the lowercased normalized text. -/
def endesaConsumoValle (n : String) : Option ℚ :=
  match (subPositions ("potencia".data) ((pyLower n).data)).get? 5 with
  | none => none
  | some pos =>
    let nums := findAllGroups (.grp 1 moneyES) 1 (String.mk (n.data.take pos))
    if 3 ≤ nums.length then
      (nums.get? (nums.length - 3)).bind (fun g => pyFloat (normEsNum g))
    else none

/-- The hardcoded triple-quoted test string that rebinds `ocr_text`
before the `consumo_total` rule runs (source lines 410–414, with its
12-space indentation). -/
def endesaLiteral : String :=
  "\n            Consumo Total\n\n            1,112,537 kWh\n            "

/-- `consumo_total`: `Consumo Total\s*\n\n\s*(\d{1,3}(?:,\d{3})+)`
matched against `endesaLiteral` (never the real input); commas removed,
a decimal point inserted before the last three digits, then `float`.
The outer `Option` is the unguarded-`float` layer. -/
def endesaConsumoTotalField : Option (Option ℚ) :=
  match grpGet (reSearch (rcat [rstr "Consumo Total", rWS, rchr '\n', rchr '\n',
      rWS, .grp 1 (rcat [rrep13 .digit, rplusG (rcat [rchr ',', rdig, rdig, rdig])])])
      endesaLiteral) 1 with
  | none => some none
  | some g =>
    let ds := g.data.filter (fun c => ¬ (c = ','))
    (pyFloat (String.mk (ds.take (ds.length - 3) ++ '.' :: ds.drop (ds.length - 3)))).map some

/-- `ha salido a\s*([\d,\.]+) €/kWh`. -/
def endesaPrecioRaw (n : String) : Option String :=
  grpGet (reSearch (rcat [rstr "ha salido a", rWS, .grp 1 (rplusG (.cls numCC)),
    rstr " €/kWh"]) n) 1

/-- `Forma de pago:\s*([^\d\n]*)` (IGNORECASE), then `.strip()`. -/
def endesaFormaPago (n : String) : Option String :=
  (grpGet (reSearch (rcat [rstrCI "Forma de pago:", rWS,
    .grp 1 (.starG (.cls (.neg (.orCC .digit (.one '\n')))))]) n) 1).map pyStrip

/-- A matched money capture converted by the unguarded
`float(g.replace(".", "").replace(",", "."))`: the outer `Option` is
`none` exactly when that `float` would raise. -/
def moneyField (raw : Option String) : Option (Option ℚ) :=
  match raw with
  | none => some none
  | some g => (pyFloat (normEsNum g)).map some

/-- Same, for the rules that convert with `float(g.replace(",", "."))`. -/
def commaDotField (raw : Option String) : Option (Option ℚ) :=
  match raw with
  | none => some none
  | some g => (pyFloat (normCommaDot g)).map some

/-- The record-building part of `extract_endesa_data` over the raw text
`t` and the normalized text `n`; `none` models a `ValueError` reaching
the outer `try`.  (Python evaluates the conversions in source order and
stops at the first failing one, but every failure leads to the same
error dictionary, so the order does not affect the result.) -/
def endesaBodyN (t n : String) : Option ParsedDict :=
  (moneyField (endesaMoneyLazy "Potencia" n)).bind fun costoPotencia =>
  (moneyField (endesaCostoEnergiaRaw n)).bind fun costoEnergia =>
  (moneyField (endesaDescuentosRaw n)).bind fun descuentos =>
  (moneyField (endesaMoneyLazy "Impuestos" n)).bind fun impuestos =>
  (moneyField (endesaMoneyLazy "Total" n)).bind fun totalAPagar =>
  endesaConsumoTotalField.bind fun consumoTotal =>
  (commaDotField (endesaPrecioRaw n)).bind fun precio =>
  some [
    ("nombre_cliente", .leaf (optStr (endesaNombre t))),
    ("numero_referencia", .leaf (optStr (endesaRef n))),
    ("fecha_emision",
      .leaf (optStr ((endesaFechaEmisionRaw n).bind format_date_to_yyyy_mm_dd))),
    ("periodo_facturacion", .node [
      ("inicio", optStr ((endesaPeriodoInicioRaw n).bind format_date_to_yyyy_mm_dd)),
      ("fin", optStr ((endesaPeriodoFinRaw n).bind format_date_to_yyyy_mm_dd)),
      ("dias", optInt ((endesaDiasRaw n).map pyIntOfDigits))]),
    ("forma_pago", .leaf (optStr (endesaFormaPago n))),
    ("fecha_cargo", .leaf (optStr (endesaFechaCargo n))),
    ("mandato", .leaf (optStr (endesaMandato n))),
    ("desglose_cargos", .node [
      ("costo_potencia", optNum costoPotencia),
      ("costo_energia", optNum costoEnergia),
      ("descuentos", optNum descuentos),
      ("impuestos", optNum impuestos),
      ("total_a_pagar", optNum totalAPagar)]),
    ("detalles_consumo", .node [
      ("consumo_punta", optNum (endesaConsumoPunta n)),
      ("consumo_valle", optNum (endesaConsumoValle n)),
      ("consumo_total", optNum consumoTotal),
      ("precio_efectivo_energia", optNum precio)])]

def endesaBody (t : String) : Option ParsedDict :=
  endesaBodyN t (collapseWs t)

def extract_endesa_data (t : String) : ParsedDict :=
  (endesaBody t).getD (errMsgDict "Error al convertir OCR a JSON para Endesa.")

/-! ## The Iberdrola extractor (`extract_iberdrola_data`)

All rules operate on the raw OCR text.  The only conversions whose
`ValueError` can reach the outer `try` are the `descuentos` and
`consumo_total` ones; they form the `Option` layer of `ibBody`. -/

/-- A `\n`, a group of capital letters and whitespace, `\n`, then `.*`
and `Potencia punta`; `.strip()` applied to the group. -/
def ibNombre (t : String) : Option String :=
  (grpGet (reSearch (rcat [rchr '\n', .grp 1 (rplusG (.cls (.orCC (.rng 'A' 'Z') .space))),
    rchr '\n', .starG (.cls (.dot false)), rstr "Potencia punta"]) t) 1).map pyStrip

/-- `N\* DE CONTRATO:\s*([\d]+)`, then `.strip()`. -/
def ibRef (t : String) : Option String :=
  (grpGet (reSearch (rcat [rstr "N* DE CONTRATO:", rWS, .grp 1 (rplusG rdig)]) t) 1).map pyStrip

/-- `FECHA DE EMISIÓN:` then two lazy DOTALL gaps each ending at a blank
line, then the `(\d{1,2}) de (\w+) de (\d{4})` groups. -/
def ibFechaEmisionCaps (t : String) : Option Caps :=
  reSearch (rcat [rstr "FECHA DE EMISIÓN:", .starL (.cls (.dot true)), rchr '\n',
    rchr '\n', .starL (.cls (.dot true)), rchr '\n', rchr '\n',
    .grp 1 (rrep12 .digit), rWSp, rstr "de", rWSp, .grp 2 (rplusG (.cls .word)),
    rWSp, rstr "de", rWSp, .grp 3 (rcat [rdig, rdig, rdig, rdig])]) t

/-- `fecha_emision`: the month name resolved through the table; stays
`None` when the month is unknown. -/
def ibFechaEmision (t : String) : Option String :=
  match ibFechaEmisionCaps t with
  | none => none
  | some caps =>
    match caps.lookup 1, caps.lookup 2, caps.lookup 3 with
    | some dia, some mes, some anio =>
      (mesesLookup (pyLower mes)).map (fun m => anio ++ "-" ++ m ++ "-" ++ pyZfill 2 dia)
    | _, _, _ => none

/-- `PERIODO DE FACTURACIÓN` then a lazy DOTALL gap, a blank line, and
two `\d{1,2}/\d{1,2}/\d{4}` groups separated by `\s+`. -/
def ibPeriodoCaps (t : String) : Option Caps :=
  reSearch (rcat [rstr "PERIODO DE FACTURACIÓN", .starL (.cls (.dot true)),
    rchr '\n', rchr '\n', .grp 1 dateD12, rWSp, .grp 2 dateD12]) t

/-- Billing period: both dates `strptime`d inside one `try`, so a
`ValueError` on either leaves both `None`. -/
def ibPeriodo (t : String) : Option String × Option String :=
  match ibPeriodoCaps t with
  | none => (none, none)
  | some caps =>
    match caps.lookup 1, caps.lookup 2 with
    | some g1, some g2 =>
      match format_date_to_yyyy_mm_dd g1, format_date_to_yyyy_mm_dd g2 with
      | some a, some b => (some a, some b)
      | _, _ => (none, none)
    | _, _ => (none, none)

/-- `dias`: same two-gap prelude as `fecha_emision`, capturing `(\d+)`. -/
def ibDiasRaw (t : String) : Option String :=
  grpGet (reSearch (rcat [rstr "FECHA DE EMISIÓN:", .starL (.cls (.dot true)),
    rchr '\n', rchr '\n', .starL (.cls (.dot true)), rchr '\n', rchr '\n',
    .grp 1 (rplusG rdig)]) t) 1

/-- `Forma de pago\s*([^\n]+)`, then `.strip()`. -/
def ibFormaPago (t : String) : Option String :=
  (grpGet (reSearch (rcat [rstr "Forma de pago", rWS,
    .grp 1 (rplusG (.cls (.neg (.one '\n'))))]) t) 1).map pyStrip

/-- `FECHA PREVISTA DE COBRO:\s*(\d{2}/\d{2}/\d{4})`, `strptime`d with a
`try` that leaves `None` on `ValueError`. -/
def ibFechaCargo (t : String) : Option String :=
  (grpGet (reSearch (rcat [rstr "FECHA PREVISTA DE COBRO:", rWS,
    .grp 1 dateDDMMYYYY]) t) 1).bind format_date_to_yyyy_mm_dd

/-- `Codigo de mandato\s*([\d]+)`, then `.strip()`. -/
def ibMandato (t : String) : Option String :=
  (grpGet (reSearch (rcat [rstr "Codigo de mandato", rWS, .grp 1 (rplusG rdig)]) t) 1).map pyStrip

/-- `([\d,\.]+)\s*€\s*\n\n\s*<anchor>` — the shape shared by the
partial-charge, energy and tax rules. -/
def ibAnchorRaw (anchor : String) (t : String) : Option String :=
  grpGet (reSearch (rcat [.grp 1 (rplusG (.cls numCC)), rWS, rchr '€', rWS,
    rchr '\n', rchr '\n', rWS, rstr anchor]) t) 1

/-- `costo_punta`: capture before `Valle`, `float(g.replace(",", "."))`
divided by 100; `0.0` when the pattern misses or the `float` raises
(caught locally). -/
def ibPuntaVal (t : String) : ℚ :=
  match ibAnchorRaw "Valle" t with
  | none => mkRat 0 1
  | some g =>
    match pyFloat (normCommaDot g) with
    | some v => qDiv100 v
    | none => mkRat 0 1

/-- `costo_valle`: same rule anchored at `Total importe potencia`. -/
def ibValleVal (t : String) : ℚ :=
  match ibAnchorRaw "Total importe potencia" t with
  | none => mkRat 0 1
  | some g =>
    match pyFloat (normCommaDot g) with
    | some v => qDiv100 v
    | none => mkRat 0 1

/-- `costo_energia`: anchored at `Energia consumida`, no shift, `0.0`
defaults. -/
def ibCostoEnergiaVal (t : String) : ℚ :=
  match ibAnchorRaw "Energia consumida" t with
  | none => mkRat 0 1
  | some g => (pyFloat (normCommaDot g)).getD (mkRat 0 1)

/-- The two tax components, anchored at `TOTAL ENERGÍA` and
`TOTAL IMPORTE FACTURA`, `0.0` defaults, summed. -/
def ibImpuestosVal (t : String) : ℚ :=
  qAdd
    (match ibAnchorRaw "TOTAL ENERGÍA" t with
     | none => mkRat 0 1
     | some g => (pyFloat (normCommaDot g)).getD (mkRat 0 1))
    (match ibAnchorRaw "TOTAL IMPORTE FACTURA" t with
     | none => mkRat 0 1
     | some g => (pyFloat (normCommaDot g)).getD (mkRat 0 1))

/-- `Descuentos.*?` then `(-?\d{1,3},\d{2}) €`; converted by an
unguarded `float`. -/
def ibDescuentosRaw (t : String) : Option String :=
  grpGet (reSearch (rcat [rstr "Descuentos", .starL (.cls (.dot false)),
    .grp 1 (rcat [roptG (rchr '-'), rrep13 .digit, rchr ',', rdig, rdig]),
    rstr " €"]) t) 1

/-- `TOTAL IMPORTE FACTURA\s*\n\n\s*([\d,\.]+)\s*€`, `0.0` defaults. -/
def ibTotalPagarVal (t : String) : ℚ :=
  match grpGet (reSearch (rcat [rstr "TOTAL IMPORTE FACTURA", rWS, rchr '\n',
      rchr '\n', rWS, .grp 1 (rplusG (.cls numCC)), rWS, rchr '€']) t) 1 with
  | none => mkRat 0 1
  | some g => (pyFloat (normCommaDot g)).getD (mkRat 0 1)

/-- `consumo_punta` (IGNORECASE): value after
`desagregados han sido punta:`, commas removed, rounded to two
decimals; `0.0` on miss or error (whole block in `try`). -/
def ibConsumoPuntaVal (t : String) : ℚ :=
  match grpGet (reSearch (rcat [rstrCI "desagregados han sido punta:", rWS,
      .grp 1 (rplusG (.cls numCC)), rWS, rstrCI "kWh"]) t) 1 with
  | none => mkRat 0 1
  | some g =>
    match pyFloat (pyDeleteChar ',' g) with
    | some v => pyRound2 v
    | none => mkRat 0 1

/-- `consumo_valle` (IGNORECASE): `([\d,\.]+)\s*kWh,\s*\n=4\s*\n` before
`Las potencias máximas demandadas`; `0.0` on miss or error. -/
def ibConsumoValleVal (t : String) : ℚ :=
  match grpGet (reSearch (rcat [.grp 1 (rplusG (.cls numCC)), rWS, rstrCI "kWh,",
      rWS, rchr '\n', rstrCI "=4", rWS, rchr '\n',
      rstrCI "Las potencias máximas demandadas"]) t) 1 with
  | none => mkRat 0 1
  | some g => (pyFloat (normCommaDot g)).getD (mkRat 0 1)

/-- `consumo_total`: `(\d{1,3},\d{2})\s*kWh`, unguarded `float`; the
integer `0` when the pattern misses. -/
def ibConsumoTotalRaw (t : String) : Option String :=
  grpGet (reSearch (rcat [.grp 1 (rcat [rrep13 .digit, rchr ',', rdig, rdig]),
    rWS, rstr "kWh"]) t) 1

/-- `precio_efectivo_energia`: `([\d,\.]+)\s*€/kWh`; the integer `0` on
miss or on a `ValueError` (caught locally). -/
def ibPrecioVal (t : String) : JVal :=
  match grpGet (reSearch (rcat [.grp 1 (rplusG (.cls numCC)), rWS,
      rstr "€/kWh"]) t) 1 with
  | none => .jint 0
  | some g =>
    match pyFloat (normCommaDot g) with
    | some v => .jnum v
    | none => .jint 0

/-- `descuentos if descuentos else 0`: Python truthiness maps both
`None` and `0.0` to the integer `0`. -/
def ibDescuentosOut (o : Option ℚ) : JVal :=
  match o with
  | some q => if q.num = 0 then .jint 0 else .jnum q
  | none => .jint 0

/-- The record-building part of `extract_iberdrola_data`; the two binds
are the unguarded `float` conversions. -/
def ibBody (t : String) : Option ParsedDict :=
  (commaDotField (ibDescuentosRaw t)).bind fun descuentos =>
  (match ibConsumoTotalRaw t with
   | none => some (JVal.jint 0)
   | some g => (pyFloat (normCommaDot g)).map .jnum).bind fun consumoTotal =>
  some [
    ("nombre_cliente", .leaf (optStr (ibNombre t))),
    ("numero_referencia", .leaf (optStr (ibRef t))),
    ("fecha_emision", .leaf (optStr (ibFechaEmision t))),
    ("periodo_facturacion", .node [
      ("inicio", optStr (ibPeriodo t).1),
      ("fin", optStr (ibPeriodo t).2),
      ("dias", optInt ((ibDiasRaw t).map pyIntOfDigits))]),
    ("forma_pago", .leaf (optStr (ibFormaPago t))),
    ("fecha_cargo", .leaf (optStr (ibFechaCargo t))),
    ("mandato", .leaf (optStr (ibMandato t))),
    ("desglose_cargos", .node [
      ("costo_potencia", .jnum (pyRound2 (qAdd (ibPuntaVal t) (ibValleVal t)))),
      ("costo_energia", .jnum (ibCostoEnergiaVal t)),
      ("descuentos", ibDescuentosOut descuentos),
      ("impuestos", .jnum (ibImpuestosVal t)),
      ("total_a_pagar", .jnum (ibTotalPagarVal t))]),
    ("detalles_consumo", .node [
      ("consumo_punta", .jnum (ibConsumoPuntaVal t)),
      ("consumo_valle", .jnum (ibConsumoValleVal t)),
      ("consumo_total", consumoTotal),
      ("precio_efectivo_energia", ibPrecioVal t)])]

def extract_iberdrola_data (t : String) : ParsedDict :=
  (ibBody t).getD (errMsgDict "Error al convertir OCR a JSON para Iberdrola.")

/-! ## The Lidera extractor (`extract_lidera_data`)

Rules operate on the raw OCR text.  The unguarded conversions are the
`impuestos` and `total_a_pagar` ones. -/

/-- `Titular del contrato:\s*(.*?)\n`, then `.strip()`. -/
def liNombre (t : String) : Option String :=
  (grpGet (reSearch (rcat [rstr "Titular del contrato:", rWS,
    .grp 1 (.starL (.cls (.dot false))), rchr '\n']) t) 1).map pyStrip

/-- The OCR-mangled contract-reference label (with its embedded blank
line) followed by `(.+)`; then `.strip()`. -/
def liRef (t : String) : Option String :=
  (grpGet (reSearch (rcat [rstr "Referencia del contrato de sumi", rchr '\n',
    rchr '\n', rstr "tro (LIDERA COMERCIALIZADORA ENERGIA):", rWS,
    .grp 1 (rplusG (.cls (.dot false)))]) t) 1).map pyStrip

/-- `Fecha emi\n\nn factura:\s*(.+)`: the rest of the line, stripped,
then `re.match`ed against `(\d{1,2}) de (\w+) de (\d{4})` and resolved
through the month table. -/
def liFechaEmision (t : String) : Option String :=
  match (grpGet (reSearch (rcat [rstr "Fecha emi", rchr '\n', rchr '\n',
      rstr "n factura:", rWS, .grp 1 (rplusG (.cls (.dot false)))]) t) 1).map pyStrip with
  | none => none
  | some raw =>
    match reMatchStart (rcat [.grp 1 (rrep12 .digit), rWSp, rstr "de", rWSp,
        .grp 2 (rplusG (.cls .word)), rWSp, rstr "de", rWSp,
        .grp 3 (rcat [rdig, rdig, rdig, rdig])]) raw with
    | none => none
    | some caps =>
      match caps.lookup 1, caps.lookup 2, caps.lookup 3 with
      | some dia, some mes, some anio =>
        (mesesLookup (pyLower mes)).map (fun m => anio ++ "-" ++ m ++ "-" ++ pyZfill 2 dia)
      | _, _, _ => none

/-- `Periodo de consumo:\n\nDe\s*(date)\s*al\s*(date)`; each date is
converted independently (each conversion has its own `try`). -/
def liPeriodo (t : String) : Option String × Option String :=
  match reSearch (rcat [rstr "Periodo de consumo:", rchr '\n', rchr '\n',
      rstr "De", rWS, .grp 1 dateD12, rWS, rstr "al", rWS, .grp 2 dateD12]) t with
  | none => (none, none)
  | some caps =>
    match caps.lookup 1, caps.lookup 2 with
    | some g1, some g2 => (format_date_to_yyyy_mm_dd g1, format_date_to_yyyy_mm_dd g2)
    | _, _ => (none, none)

/-- `(\d+)\s+Días`, `int` of the stripped capture. -/
def liDiasRaw (t : String) : Option String :=
  grpGet (reSearch (rcat [.grp 1 (rplusG rdig), rWSp, rstr "Días"]) t) 1

/-- `Forma de pago:\s*(.+)`, then `.strip()`. -/
def liFormaPago (t : String) : Option String :=
  (grpGet (reSearch (rcat [rstr "Forma de pago:", rWS,
    .grp 1 (rplusG (.cls (.dot false)))]) t) 1).map pyStrip

/-- `Fecha de cargo:\n\n(\d{2}/\d{2}/\d{4})`, `strptime`d; `None` on
failure. -/
def liFechaCargo (t : String) : Option String :=
  (grpGet (reSearch (rcat [rstr "Fecha de cargo:", rchr '\n', rchr '\n',
    .grp 1 dateDDMMYYYY]) t) 1).bind format_date_to_yyyy_mm_dd

/-- The per-day-charge pattern of the nested `extract_costo_potencia`:
`Días.*?[€E]/KW día\n\n([\d,\.]+)` (IGNORECASE). -/
def liDiasChargeRE : RE :=
  rcat [rstrCI "Días", .starL (.cls (.dot false)), .cls (.ciAnyOf ['€', 'e']),
    rstrCI "/KW día", rchr '\n', rchr '\n', .grp 1 (rplusG (.cls numCC))]

/-- The per-day charge values found after the `DETALLE DE LA FACTURA`
heading: every capture of `liDiasChargeRE`, converted by
`float(v.replace(",", "."))`, invalid values skipped. -/
def liPerDayVals (t : String) : List ℚ :=
  match findSubPos ((pyLower "DETALLE DE LA FACTURA").data) ((pyLower t).data) with
  | none => []
  | some pos =>
    (findAllGroups liDiasChargeRE 1
      (String.mk (t.data.drop (pos + "DETALLE DE LA FACTURA".length)))).filterMap
      (fun g => pyFloat (normCommaDot g))

/-- The nested `extract_costo_potencia`: `0.0` when the heading is
missing, otherwise the rounded sum of the per-day charge values. -/
def extract_costo_potencia (t : String) : ℚ :=
  match findSubPos ((pyLower "DETALLE DE LA FACTURA").data) ((pyLower t).data) with
  | none => mkRat 0 1
  | some _ => pyRound2 ((liPerDayVals t).foldl qAdd (mkRat 0 1))

/-- `Impuesto Electricidad\n\n([\d.,]+)` (IGNORECASE); the conversion
`float(g.replace(",", "."))` is unguarded, `0.0` on miss. -/
def liImpuestosRaw (t : String) : Option String :=
  grpGet (reSearch (rcat [rstrCI "Impuesto Electricidad", rchr '\n', rchr '\n',
    .grp 1 (rplusG (.cls numCC))]) t) 1

/-- `TOTAL IMPORTE FACTURA\n\n([\d.,]+)` (IGNORECASE). -/
def liTotalRaw (t : String) : Option String :=
  grpGet (reSearch (rcat [rstrCI "TOTAL IMPORTE FACTURA", rchr '\n', rchr '\n',
    .grp 1 (rplusG (.cls numCC))]) t) 1

/-- The unguarded `total_a_pagar` conversion: Spanish normalization when
the capture holds a comma, otherwise commas (none) removed. -/
def liTotalConv (g : String) : Option ℚ :=
  if occursIn [','] g.data then pyFloat (normEsNum g)
  else pyFloat (pyDeleteChar ',' g)

/-- The record-building part of `extract_lidera_data`; the two binds are
the unguarded `float` conversions (`0.0` when their patterns miss). -/
def liBody (t : String) : Option ParsedDict :=
  (match liImpuestosRaw t with
   | none => some (mkRat 0 1)
   | some g => pyFloat (normCommaDot g)).bind fun impuestos =>
  (match liTotalRaw t with
   | none => some (mkRat 0 1)
   | some g => liTotalConv g).bind fun totalAPagar =>
  some [
    ("nombre_cliente", .leaf (optStr (liNombre t))),
    ("numero_referencia", .leaf (optStr (liRef t))),
    ("fecha_emision", .leaf (optStr (liFechaEmision t))),
    ("periodo_facturacion", .node [
      ("inicio", optStr (liPeriodo t).1),
      ("fin", optStr (liPeriodo t).2),
      ("dias", optInt ((liDiasRaw t).map (fun g => pyIntOfDigits (pyStrip g))))]),
    ("forma_pago", .leaf (optStr (liFormaPago t))),
    ("fecha_cargo", .leaf (optStr (liFechaCargo t))),
    ("mandato", .leaf (.jstr "SIN CODIGO DE MANDATO")),
    ("desglose_cargos", .node [
      ("costo_potencia", .jnum (extract_costo_potencia t)),
      ("costo_energia", .jnull),
      ("descuentos", .jint 0),
      ("impuestos", .jnum impuestos),
      ("total_a_pagar", .jnum totalAPagar)]),
    ("detalles_consumo", .node [
      ("consumo_punta", .jint 0),
      ("consumo_valle", .jint 0),
      ("consumo_total", .jint 0),
      ("precio_efectivo_energia", .jint 0)])]

def extract_lidera_data (t : String) : ParsedDict :=
  (liBody t).getD (errMsgDict "Error al convertir OCR a JSON para Lidera Energia.")

/-! ## The placeholder extractors (`extract_naturgy_data`,
`extract_edistribucion_data`)

Both ignore their input entirely and return a fixed dictionary. -/

def naturgyPlaceholder : ParsedDict :=
  [("nombre_cliente", .leaf (.jstr "NATURGY TESTE")),
   ("numero_referencia", .leaf (.jstr "XXXXXXXXX")),
   ("fecha_emision", .leaf (.jstr "1990-01-01")),
   ("periodo_facturacion", .node [
     ("inicio", .jstr "1990-01-01"),
     ("fin", .jstr "1990-01-01"),
     ("dias", .jstr "00")]),
   ("forma_pago", .leaf (.jstr "teste forma de pago")),
   ("fecha_cargo", .leaf (.jstr "1990-01-01")),
   ("mandato", .leaf (.jstr "XXXXXXXXX")),
   ("desglose_cargos", .node [
     ("costo_potencia", .jint 0),
     ("costo_energia", .jint 0),
     ("descuentos", .jint 0),
     ("impuestos", .jint 0),
     ("total_a_pagar", .jint 0)]),
   ("detalles_consumo", .node [
     ("consumo_punta", .jint 0),
     ("consumo_valle", .jint 0),
     ("consumo_total", .jint 0),
     ("precio_efectivo_energia", .jint 0)])]

def edistribucionPlaceholder : ParsedDict :=
  [("nombre_cliente", .leaf (.jstr "E-DISTRIBUCIÓN TESTE")),
   ("numero_referencia", .leaf (.jstr "XXXXXXXXX")),
   ("fecha_emision", .leaf (.jstr "1990-01-01")),
   ("periodo_facturacion", .node [
     ("inicio", .jstr "1990-01-01"),
     ("fin", .jstr "1990-01-01"),
     ("dias", .jstr "00")]),
   ("forma_pago", .leaf (.jstr "teste forma de pago")),
   ("fecha_cargo", .leaf (.jstr "1990-01-01")),
   ("mandato", .leaf (.jstr "XXXXXXXXX")),
   ("desglose_cargos", .node [
     ("costo_potencia", .jint 0),
     ("costo_energia", .jint 0),
     ("descuentos", .jint 0),
     ("impuestos", .jint 0),
     ("total_a_pagar", .jint 0)]),
   ("detalles_consumo", .node [
     ("consumo_punta", .jint 0),
     ("consumo_valle", .jint 0),
     ("consumo_total", .jint 0),
     ("precio_efectivo_energia", .jint 0)])]

def extract_naturgy_data (_t : String) : ParsedDict :=
  naturgyPlaceholder

def extract_edistribucion_data (_t : String) : ParsedDict :=
  edistribucionPlaceholder

/-! ## The dispatcher and the pipeline -/

def convert_ocr_to_json (t : String) : ParsedDict :=
  convert_with extract_endesa_data extract_iberdrola_data extract_lidera_data
    extract_naturgy_data extract_edistribucion_data t

/-- `pdf_to_images` over an abstract document: either the list of pages
(carried as their eventual per-page OCR text) or a raising parse/render
failure.  The source catches every exception and returns the empty
list. -/
def pdf_to_images (doc : Except String (List String)) : List String :=
  match doc with
  | .ok pages => pages
  | .error _ => []

/-- The OCR-combining loop of `InvoiceProcessView.post`:
`ocr_text_combined += ocr_text + "\n"` over `images[:2]`. -/
def combineOcr (pages : List String) : String :=
  (pages.take 2).foldl (fun acc p => acc ++ p ++ "\n") ""

/-- A run's outcome as the view reports it: HTTP 201 with the parsed
dictionary, or HTTP 500 with a stage-failure cause (the view's outer
`except`). -/
inductive RunResult where
  | success (parsed : ParsedDict)
  | stageFailure (cause : String)
deriving DecidableEq

/-- The pipeline of `InvoiceProcessView.post` from rasterization to the
parsed dictionary (storage and preview upload are outside this core). -/
def runPipeline (doc : Except String (List String)) : RunResult :=
  .success (convert_ocr_to_json (combineOcr (pdf_to_images doc)))

/-! ## Helper lemmas -/

theorem hasError_errMsgDict (m : String) : hasError (errMsgDict m) = true := rfl

/-- Destructuring of a successful Endesa extraction: the record is the
field-by-field dictionary literal, and the `consumo_total` value comes
from `endesaConsumoTotalField` (the hardcoded literal), not from the
input. -/
theorem endesaBody_shape (t : String) (d : ParsedDict) (h : endesaBody t = some d) :
    ∃ v1 v2 v3 v4 v5 v6 v7,
      endesaConsumoTotalField = some v6 ∧
      d = [
        ("nombre_cliente", .leaf (optStr (endesaNombre t))),
        ("numero_referencia", .leaf (optStr (endesaRef (collapseWs t)))),
        ("fecha_emision",
          .leaf (optStr ((endesaFechaEmisionRaw (collapseWs t)).bind format_date_to_yyyy_mm_dd))),
        ("periodo_facturacion", .node [
          ("inicio", optStr ((endesaPeriodoInicioRaw (collapseWs t)).bind format_date_to_yyyy_mm_dd)),
          ("fin", optStr ((endesaPeriodoFinRaw (collapseWs t)).bind format_date_to_yyyy_mm_dd)),
          ("dias", optInt ((endesaDiasRaw (collapseWs t)).map pyIntOfDigits))]),
        ("forma_pago", .leaf (optStr (endesaFormaPago (collapseWs t)))),
        ("fecha_cargo", .leaf (optStr (endesaFechaCargo (collapseWs t)))),
        ("mandato", .leaf (optStr (endesaMandato (collapseWs t)))),
        ("desglose_cargos", .node [
          ("costo_potencia", optNum v1),
          ("costo_energia", optNum v2),
          ("descuentos", optNum v3),
          ("impuestos", optNum v4),
          ("total_a_pagar", optNum v5)]),
        ("detalles_consumo", .node [
          ("consumo_punta", optNum (endesaConsumoPunta (collapseWs t))),
          ("consumo_valle", optNum (endesaConsumoValle (collapseWs t))),
          ("consumo_total", optNum v6),
          ("precio_efectivo_energia", optNum v7)])] := by
  simp only [endesaBody, endesaBodyN, Option.bind_eq_some, Option.some.injEq] at h
  obtain ⟨v1, h1, v2, h2, v3, h3, v4, h4, v5, h5, v6, h6, v7, h7, hd⟩ := h
  exact ⟨v1, v2, v3, v4, v5, v6, v7, h6, hd.symm⟩

/-- Destructuring of a successful Iberdrola extraction. -/
theorem ibBody_shape (t : String) (d : ParsedDict) (h : ibBody t = some d) :
    ∃ v1 v2,
      d = [
        ("nombre_cliente", .leaf (optStr (ibNombre t))),
        ("numero_referencia", .leaf (optStr (ibRef t))),
        ("fecha_emision", .leaf (optStr (ibFechaEmision t))),
        ("periodo_facturacion", .node [
          ("inicio", optStr (ibPeriodo t).1),
          ("fin", optStr (ibPeriodo t).2),
          ("dias", optInt ((ibDiasRaw t).map pyIntOfDigits))]),
        ("forma_pago", .leaf (optStr (ibFormaPago t))),
        ("fecha_cargo", .leaf (optStr (ibFechaCargo t))),
        ("mandato", .leaf (optStr (ibMandato t))),
        ("desglose_cargos", .node [
          ("costo_potencia", .jnum (pyRound2 (qAdd (ibPuntaVal t) (ibValleVal t)))),
          ("costo_energia", .jnum (ibCostoEnergiaVal t)),
          ("descuentos", ibDescuentosOut v1),
          ("impuestos", .jnum (ibImpuestosVal t)),
          ("total_a_pagar", .jnum (ibTotalPagarVal t))]),
        ("detalles_consumo", .node [
          ("consumo_punta", .jnum (ibConsumoPuntaVal t)),
          ("consumo_valle", .jnum (ibConsumoValleVal t)),
          ("consumo_total", v2),
          ("precio_efectivo_energia", ibPrecioVal t)])] := by
  simp only [ibBody, Option.bind_eq_some, Option.some.injEq] at h
  obtain ⟨v1, h1, v2, h2, hd⟩ := h
  exact ⟨v1, v2, hd.symm⟩

/-- Destructuring of a successful Lidera extraction. -/
theorem liBody_shape (t : String) (d : ParsedDict) (h : liBody t = some d) :
    ∃ v1 v2,
      d = [
        ("nombre_cliente", .leaf (optStr (liNombre t))),
        ("numero_referencia", .leaf (optStr (liRef t))),
        ("fecha_emision", .leaf (optStr (liFechaEmision t))),
        ("periodo_facturacion", .node [
          ("inicio", optStr (liPeriodo t).1),
          ("fin", optStr (liPeriodo t).2),
          ("dias", optInt ((liDiasRaw t).map (fun g => pyIntOfDigits (pyStrip g))))]),
        ("forma_pago", .leaf (optStr (liFormaPago t))),
        ("fecha_cargo", .leaf (optStr (liFechaCargo t))),
        ("mandato", .leaf (.jstr "SIN CODIGO DE MANDATO")),
        ("desglose_cargos", .node [
          ("costo_potencia", .jnum (extract_costo_potencia t)),
          ("costo_energia", .jnull),
          ("descuentos", .jint 0),
          ("impuestos", .jnum v1),
          ("total_a_pagar", .jnum v2)]),
        ("detalles_consumo", .node [
          ("consumo_punta", .jint 0),
          ("consumo_valle", .jint 0),
          ("consumo_total", .jint 0),
          ("precio_efectivo_energia", .jint 0)])] := by
  simp only [liBody, Option.bind_eq_some, Option.some.injEq] at h
  obtain ⟨v1, h1, v2, h2, hd⟩ := h
  exact ⟨v1, v2, hd.symm⟩

/-! ## Claims -/

/-- C1: vendor classification tests case-insensitive substring
containment of the marker strings in the fixed priority order Endesa,
Iberdrola, Lidera, Naturgy, E-Distribución and returns the vendor of the
first matching marker (equivalence with the spec's first-match-in-order
reading); in particular a text containing exactly one provider's marker
is classified as that provider. -/
theorem c1_classifier_priority :
    (∀ t, classifyVendor t = classifySpecOrder t) ∧
    (∀ t p, p ≠ VendorTag.unrecognized →
      hasMarker t (markerOf p) = true →
      (∀ q, q ≠ p → q ≠ VendorTag.unrecognized → hasMarker t (markerOf q) = false) →
      classifyVendor t = p) := by
  constructor
  · intro t
    simp only [classifyVendor, classifySpecOrder, List.find?, markerOf]
    cases h1 : hasMarker t "endesa" <;>
      cases h2 : hasMarker t "iberdrola" <;>
      cases h3 : hasMarker t "lidera comercializadora energia" <;>
      cases h4 : hasMarker t "naturgy iberia" <;>
      cases h5 : hasMarker t "e-distribución" <;>
      simp
  · intro t p hp hm hq
    cases p with
    | endesa =>
      simp only [markerOf] at hm
      simp [classifyVendor, hm]
    | iberdrola =>
      have hE := hq .endesa (by decide) (by decide)
      simp only [markerOf] at hE hm
      simp [classifyVendor, hE, hm]
    | lidera =>
      have hE := hq .endesa (by decide) (by decide)
      have hI := hq .iberdrola (by decide) (by decide)
      simp only [markerOf] at hE hI hm
      simp [classifyVendor, hE, hI, hm]
    | naturgy =>
      have hE := hq .endesa (by decide) (by decide)
      have hI := hq .iberdrola (by decide) (by decide)
      have hL := hq .lidera (by decide) (by decide)
      simp only [markerOf] at hE hI hL hm
      simp [classifyVendor, hE, hI, hL, hm]
    | edistribucion =>
      have hE := hq .endesa (by decide) (by decide)
      have hI := hq .iberdrola (by decide) (by decide)
      have hL := hq .lidera (by decide) (by decide)
      have hN := hq .naturgy (by decide) (by decide)
      simp only [markerOf] at hE hI hL hN hm
      simp [classifyVendor, hE, hI, hL, hN, hm]
    | unrecognized => exact absurd rfl hp

/-- Witness for C1: a text containing only the Naturgy marker is
classified as Naturgy. -/
theorem c1_classifier_priority_witness :
    classifyVendor "factura de NATURGY IBERIA, S.A." = VendorTag.naturgy :=
  c1_classifier_priority.2 "factura de NATURGY IBERIA, S.A." .naturgy
    (by decide) (by decide) (by decide)

/-- C2: when none of the five marker substrings occurs (after
lowercasing), conversion returns the classification-failure dictionary,
whatever the five extraction functions are — so no extractor is ever
invoked on such a text. -/
theorem c2_unrecognized_no_extraction :
    ∀ t, hasMarker t "endesa" = false →
      hasMarker t "iberdrola" = false →
      hasMarker t "lidera comercializadora energia" = false →
      hasMarker t "naturgy iberia" = false →
      hasMarker t "e-distribución" = false →
      (∀ fE fI fL fN fD, convert_with fE fI fL fN fD t = errNoVendor) ∧
      convert_ocr_to_json t = errNoVendor := by
  intro t h1 h2 h3 h4 h5
  have hc : classifyVendor t = .unrecognized := by
    simp [classifyVendor, h1, h2, h3, h4, h5]
  exact ⟨fun fE fI fL fN fD => by simp [convert_with, hc],
    by simp [convert_ocr_to_json, convert_with, hc]⟩

/-- Witness for C2: a marker-free text maps to the classification
failure, both for the real extractors and for arbitrary ones. -/
theorem c2_unrecognized_no_extraction_witness :
    convert_ocr_to_json "texto sin comercializadora conocida" = errNoVendor ∧
    convert_with (fun _ => []) (fun _ => []) (fun _ => []) (fun _ => [])
      (fun _ => []) "texto sin comercializadora conocida" = errNoVendor := by
  have h := c2_unrecognized_no_extraction "texto sin comercializadora conocida"
    (by decide) (by decide) (by decide) (by decide) (by decide)
  exact ⟨h.2, h.1 _ _ _ _ _⟩

/-- C3: for every input text the dispatching conversion step returns
either the full structured record (the nine standard keys, each field
independently nullable) or a tagged error dictionary — the embedding is
total, so no unhandled exception exists — and a non-matching field rule
(here the Endesa `nombre_cliente` rule) sets its field to null while the
other fields still come from their own rules: no single missing field
aborts the record. -/
theorem c3_record_or_tagged_error :
    (∀ t, hasError (convert_ocr_to_json t) = true ∨
      dictKeys (convert_ocr_to_json t) = stdKeys) ∧
    (∀ t d, extract_endesa_data t = d → hasError d = false →
      endesaNombre t = none →
      dget "nombre_cliente" d = some (.leaf .jnull) ∧
      dget "numero_referencia" d = some (.leaf (optStr (endesaRef (collapseWs t))))) := by
  constructor
  · intro t
    cases hv : classifyVendor t with
    | endesa =>
      simp only [convert_ocr_to_json, convert_with, hv]
      cases hb : endesaBody t with
      | none => exact Or.inl (by simp [extract_endesa_data, hb, hasError_errMsgDict])
      | some dd =>
        obtain ⟨v1, v2, v3, v4, v5, v6, v7, hct, hd⟩ := endesaBody_shape t dd hb
        exact Or.inr (by simp [extract_endesa_data, hb, hd, dictKeys, stdKeys])
    | iberdrola =>
      simp only [convert_ocr_to_json, convert_with, hv]
      cases hb : ibBody t with
      | none => exact Or.inl (by simp [extract_iberdrola_data, hb, hasError_errMsgDict])
      | some dd =>
        obtain ⟨v1, v2, hd⟩ := ibBody_shape t dd hb
        exact Or.inr (by simp [extract_iberdrola_data, hb, hd, dictKeys, stdKeys])
    | lidera =>
      simp only [convert_ocr_to_json, convert_with, hv]
      cases hb : liBody t with
      | none => exact Or.inl (by simp [extract_lidera_data, hb, hasError_errMsgDict])
      | some dd =>
        obtain ⟨v1, v2, hd⟩ := liBody_shape t dd hb
        exact Or.inr (by simp [extract_lidera_data, hb, hd, dictKeys, stdKeys])
    | naturgy =>
      simp only [convert_ocr_to_json, convert_with, hv]
      exact Or.inr rfl
    | edistribucion =>
      simp only [convert_ocr_to_json, convert_with, hv]
      exact Or.inr rfl
    | unrecognized =>
      simp only [convert_ocr_to_json, convert_with, hv]
      exact Or.inl rfl
  · intro t d hd he hn
    cases hb : endesaBody t with
    | none =>
      rw [extract_endesa_data, hb] at hd
      simp only [Option.getD_none] at hd
      rw [← hd, hasError_errMsgDict] at he
      exact Bool.noConfusion he
    | some dd =>
      rw [extract_endesa_data, hb] at hd
      simp only [Option.getD_some] at hd
      obtain ⟨v1, v2, v3, v4, v5, v6, v7, hct, hsh⟩ := endesaBody_shape t dd hb
      rw [← hd, hsh]
      constructor
      · simp [dget, hn, optStr]
      · simp [dget]

/-- Witness for C3: on the text `"endesa"` the nombre rule misses, yet a
full record is produced with a null `nombre_cliente` and the reference
field given by its own rule. -/
theorem c3_record_or_tagged_error_witness :
    hasError (extract_endesa_data "endesa") = false ∧
    endesaNombre "endesa" = none ∧
    dget "nombre_cliente" (extract_endesa_data "endesa") = some (.leaf .jnull) ∧
    dget "numero_referencia" (extract_endesa_data "endesa") =
      some (.leaf (optStr (endesaRef (collapseWs "endesa")))) := by
  have h := c3_record_or_tagged_error.2 "endesa" (extract_endesa_data "endesa")
    rfl (by decide) (by decide)
  exact ⟨by decide, by decide, h.1, h.2⟩

/-- C4 counterexample: on a document whose rasterization fails, the run
does not return a stage failure carrying the cause — `pdf_to_images`
swallows the exception and the run ends in an HTTP-201 response whose
parsed data is the classification-failure dictionary. -/
theorem c4_raster_failure_cex :
    runPipeline (Except.error "cannot parse PDF") = RunResult.success errNoVendor ∧
    runPipeline (Except.error "cannot parse PDF") ≠
      RunResult.stageFailure "cannot parse PDF" := by
  exact ⟨rfl, by decide⟩

/-- C4 amended: when rasterization fails, `pdf_to_images` returns the
empty page list (so no partial page list reaches later stages), and the
run proceeds to return a classification-failure result — not a stage
failure carrying the cause. -/
theorem c4_raster_failure_amended :
    ∀ cause, pdf_to_images (Except.error cause) = [] ∧
      runPipeline (Except.error cause) = RunResult.success errNoVendor :=
  fun _ => ⟨rfl, rfl⟩

/-- C5 counterexample: for a three-page document the combined OCR text
is not page-1 ++ newline ++ page-2 — the loop appends a newline after
every page, so a trailing newline follows page 2. -/
theorem c5_page_order_cex :
    combineOcr ["a", "b", "c"] = "a" ++ "\n" ++ "b" ++ "\n" ∧
    combineOcr ["a", "b", "c"] ≠ "a" ++ "\n" ++ "b" := by
  exact ⟨rfl, by decide⟩

/-- C5 amended: for every document with at least two pages the combined
text is page-1 text, a newline, page-2 text, and a final newline —
pages in order, later pages never included. -/
theorem c5_page_order_amended :
    ∀ p1 p2 rest, combineOcr (p1 :: p2 :: rest) = p1 ++ "\n" ++ p2 ++ "\n" := by
  intro p1 p2 rest
  rfl

/-- Mapping the comma-to-point substitution over a comma-free character
list is the identity. -/
theorem mapNoComma (l : List Char) (hl : ',' ∉ l) :
    l.map (fun c => if c = ',' then '.' else c) = l := by
  induction l with
  | nil => rfl
  | cons a as ih =>
    simp only [List.mem_cons, not_or] at hl
    have ha : ¬ (a = ',') := fun h => hl.1 h.symm
    simp [ha, ih hl.2]

/-- C6: the Spanish-locale normalization (strip thousands dots, decimal
comma to point) sends `"1.234,56"` to the value 1234.56 and `"12,50"` to
12.50; and the plain comma-to-point normalization used where a grammar
expects plain decimals is the identity on already-normalized (comma-free)
decimal strings, hence idempotent there. -/
theorem c6_numeric_normalization :
    pyFloat (normEsNum "1.234,56") = some (mkRat 123456 100) ∧
    pyFloat (normEsNum "12,50") = some (mkRat 1250 100) ∧
    (∀ s, ',' ∉ s.data → normCommaDot s = s) := by
  refine ⟨by decide, by decide, ?_⟩
  intro s hs
  show String.mk (s.data.map fun c => if c = ',' then '.' else c) = s
  rw [mapNoComma s.data hs]

/-- Witness for C6: `"1234.56"` is comma-free and normalization leaves
it unchanged. -/
theorem c6_numeric_normalization_witness :
    ',' ∉ ("1234.56" : String).data ∧ normCommaDot "1234.56" = "1234.56" :=
  ⟨by decide, c6_numeric_normalization.2.2 "1234.56" (by decide)⟩

/-- C7: date normalization sends `"05/03/2023"` to `"2023-03-05"`, sends
day `"5"`, month name `"marzo"`, year `"2023"` through the 12-entry
month table (day zero-filled) to `"2023-03-05"`, and yields null — not
an exception — on unparsable dates, both for an impossible calendar date
and for a non-date string, and universally whenever the month name is
not in the table. -/
theorem c7_date_normalization :
    format_date_to_yyyy_mm_dd "05/03/2023" = some "2023-03-05" ∧
    format_date_with_month_name "5" "marzo" "2023" = some "2023-03-05" ∧
    format_date_to_yyyy_mm_dd "31/02/2023" = none ∧
    format_date_to_yyyy_mm_dd "fecha desconocida" = none ∧
    (∀ dia mes anio, mesesLookup (pyLower mes) = none →
      format_date_with_month_name dia mes anio = none) := by
  refine ⟨by decide, by decide, by decide, by decide, ?_⟩
  intro dia mes anio h
  simp [format_date_with_month_name, h]

/-- Witness for C7: an unknown month name yields null. -/
theorem c7_date_normalization_witness :
    mesesLookup (pyLower "brumario") = none ∧
    format_date_with_month_name "07" "brumario" "2023" = none :=
  ⟨by decide, c7_date_normalization.2.2.2.2 "07" "brumario" "2023" (by decide)⟩

/-- C8 counterexample: on a text whose peak-charge capture is `"350"`
(and whose off-peak pattern misses), the Iberdrola `costo_potencia` is
3.5, not the captured numeric value 350 — the code divides each partial
charge by 100 before summing. -/
theorem c8_costo_potencia_cex :
    dget2 (extract_iberdrola_data "iberdrola\n350 €\n\nValle")
      "desglose_cargos" "costo_potencia" = some (.jnum (mkRat 7 2)) ∧
    dget2 (extract_iberdrola_data "iberdrola\n350 €\n\nValle")
      "desglose_cargos" "costo_potencia" ≠
      some (.jnum (pyRound2 (qAdd (mkRat 350 1) (mkRat 0 1)))) := by
  exact ⟨by decide, by decide⟩

/-- C8 amended: whenever the Iberdrola extractor returns a record, its
`costo_potencia` equals the rounded sum of the two partial charges,
where each partial charge is the captured value before its anchor
divided by 100 (or zero when its pattern misses or its conversion
fails); and whenever the Lidera extractor returns a record, its
`costo_potencia` equals the rounded sum of every per-day charge value
found after the `DETALLE DE LA FACTURA` heading. -/
theorem c8_costo_potencia_amended :
    (∀ t d, extract_iberdrola_data t = d → hasError d = false →
      dget2 d "desglose_cargos" "costo_potencia" =
        some (.jnum (pyRound2 (qAdd (ibPuntaVal t) (ibValleVal t))))) ∧
    (∀ t d, extract_lidera_data t = d → hasError d = false →
      dget2 d "desglose_cargos" "costo_potencia" =
        some (.jnum (pyRound2 ((liPerDayVals t).foldl qAdd (mkRat 0 1))))) := by
  constructor
  · intro t d hd he
    cases hb : ibBody t with
    | none =>
      rw [extract_iberdrola_data, hb] at hd
      simp only [Option.getD_none] at hd
      rw [← hd, hasError_errMsgDict] at he
      exact Bool.noConfusion he
    | some dd =>
      rw [extract_iberdrola_data, hb] at hd
      simp only [Option.getD_some] at hd
      obtain ⟨v1, v2, hsh⟩ := ibBody_shape t dd hb
      rw [← hd, hsh]
      simp [dget2, dget, jget]
  · intro t d hd he
    cases hb : liBody t with
    | none =>
      rw [extract_lidera_data, hb] at hd
      simp only [Option.getD_none] at hd
      rw [← hd, hasError_errMsgDict] at he
      exact Bool.noConfusion he
    | some dd =>
      rw [extract_lidera_data, hb] at hd
      simp only [Option.getD_some] at hd
      obtain ⟨v1, v2, hsh⟩ := liBody_shape t dd hb
      have hcp : extract_costo_potencia t =
          pyRound2 ((liPerDayVals t).foldl qAdd (mkRat 0 1)) := by
        cases hf : findSubPos ((pyLower "DETALLE DE LA FACTURA").data) ((pyLower t).data) with
        | none =>
          simp only [extract_costo_potencia, liPerDayVals, hf]
          decide
        | some p => simp [extract_costo_potencia, hf]
      rw [← hd, hsh]
      simp [dget2, dget, jget, hcp]

/-- Witness for C8: concrete Iberdrola and Lidera texts whose records
carry the computed power costs (0.39 and 8.29). -/
theorem c8_costo_potencia_amended_witness :
    dget2 (extract_iberdrola_data "iberdrola\n26,94 €\n\nValle\n12,06 €\n\nTotal importe potencia")
      "desglose_cargos" "costo_potencia" =
      some (.jnum (pyRound2 (qAdd
        (ibPuntaVal "iberdrola\n26,94 €\n\nValle\n12,06 €\n\nTotal importe potencia")
        (ibValleVal "iberdrola\n26,94 €\n\nValle\n12,06 €\n\nTotal importe potencia")))) ∧
    dget2 (extract_lidera_data "DETALLE DE LA FACTURA\n2 Días x 1,0 €/KW día\n\n8,10\n3 Días x 1,0 E/KW día\n\n0,19")
      "desglose_cargos" "costo_potencia" =
      some (.jnum (pyRound2 ((liPerDayVals "DETALLE DE LA FACTURA\n2 Días x 1,0 €/KW día\n\n8,10\n3 Días x 1,0 E/KW día\n\n0,19").foldl qAdd (mkRat 0 1)))) := by
  refine ⟨c8_costo_potencia_amended.1 _ _ rfl (by decide),
    c8_costo_potencia_amended.2 _ _ rfl (by decide)⟩

/-- C9 counterexample: the Naturgy extractor does return its fixed
record, but that record carries no explicit placeholder flag — the
`placeholder: true` marker the specification's error-model calls for is
absent. -/
theorem c9_placeholder_cex :
    extract_naturgy_data "factura NATURGY IBERIA" = naturgyPlaceholder ∧
    placeholderFlagged (extract_naturgy_data "factura NATURGY IBERIA") = false :=
  ⟨rfl, by decide⟩

/-- C9 amended: for every input text the Naturgy and E-Distribución
extractors perform no pattern matching and return their fixed
placeholder records verbatim; the records carry no explicit
unimplemented-vendor flag, so callers can distinguish them only by their
sentinel contents. -/
theorem c9_placeholder_amended :
    ∀ t, extract_naturgy_data t = naturgyPlaceholder ∧
      extract_edistribucion_data t = edistribucionPlaceholder ∧
      placeholderFlagged naturgyPlaceholder = false ∧
      placeholderFlagged edistribucionPlaceholder = false :=
  fun _ => ⟨rfl, rfl, by decide, by decide⟩

/-- C10: whenever the Endesa extractor returns a record, its
`consumo_total` is the constant 1112.537 computed from the hardcoded
literal that rebinds the input variable — the real text never reaches
this rule — while the other fields (here `nombre_cliente`, extracted
before the rebinding, and `forma_pago`, extracted after it) still come
from their own rules over the real text. -/
theorem c10_consumo_total_hardcoded :
    ∀ t d, extract_endesa_data t = d → hasError d = false →
      dget2 d "detalles_consumo" "consumo_total" = some (.jnum (mkRat 1112537 1000)) ∧
      dget "nombre_cliente" d = some (.leaf (optStr (endesaNombre t))) ∧
      dget "forma_pago" d = some (.leaf (optStr (endesaFormaPago (collapseWs t)))) := by
  intro t d hd he
  cases hb : endesaBody t with
  | none =>
    rw [extract_endesa_data, hb] at hd
    simp only [Option.getD_none] at hd
    rw [← hd, hasError_errMsgDict] at he
    exact Bool.noConfusion he
  | some dd =>
    rw [extract_endesa_data, hb] at hd
    simp only [Option.getD_some] at hd
    obtain ⟨v1, v2, v3, v4, v5, v6, v7, hct, hsh⟩ := endesaBody_shape t dd hb
    have hlit : endesaConsumoTotalField = some (some (mkRat 1112537 1000)) := by decide
    rw [hlit] at hct
    have h6 : v6 = some (mkRat 1112537 1000) := (Option.some.inj hct).symm
    rw [← hd, hsh, h6]
    refine ⟨?_, ?_, ?_⟩
    · simp [dget2, dget, jget, optNum]
    · simp [dget]
    · simp [dget]

/-- Witness for C10: a text without Endesa fields still yields the
hardcoded 1112.537, and its `forma_pago` comes from the real text. -/
theorem c10_consumo_total_hardcoded_witness :
    hasError (extract_endesa_data "Forma de pago: Tarjeta") = false ∧
    dget2 (extract_endesa_data "Forma de pago: Tarjeta") "detalles_consumo" "consumo_total" =
      some (.jnum (mkRat 1112537 1000)) ∧
    dget "forma_pago" (extract_endesa_data "Forma de pago: Tarjeta") =
      some (.leaf (optStr (endesaFormaPago (collapseWs "Forma de pago: Tarjeta")))) := by
  have h := c10_consumo_total_hardcoded "Forma de pago: Tarjeta"
    (extract_endesa_data "Forma de pago: Tarjeta") rfl (by decide)
  exact ⟨by decide, h.1, h.2.2⟩

end Voltix
